import Mathlib

/-!
Verification of the photobooth-magzme backend against its specification.

The JavaScript handlers under `src/api` (and the Express variants) are
shallowly embedded as pure Lean functions.  External collaborators — the
Vercel Blob store, the Prisma metadata store, the multipart parser — are
modelled as explicit inputs (`Except` values for calls that can throw,
lists of rows for the database).  Strings follow JavaScript semantics
where it matters: `undefined` is `Option.none`, the empty string is
falsy, `split` keeps empty segments.
-/

namespace PhotoboothSpec

/-- JS truthiness for a `string | undefined` value: `undefined` and `""`
are falsy. -/
def falsyStr : Option String → Bool
  | none => true
  | some s => s = ""

/-- JS `x || d` for a `string | undefined` value `x` and a string default. -/
def jsOr (x : Option String) (d : String) : String :=
  match x with
  | none => d
  | some s => if s = "" then d else s

/-- JS falsiness for a `string | undefined`: `none` or `some ""`. -/
def jsFalsyOptStr : Option String → Bool
  | none => true
  | some s => s = ""

/-- JS `String.prototype.split` with a one-character separator, on the
character list of the string.  Keeps empty segments; `"".split(sep)`
is `[""]`. -/
def jsSplit (sep : Char) : List Char → List (List Char)
  | [] => [[]]
  | c :: cs =>
    if c = sep then [] :: jsSplit sep cs
    else
      match jsSplit sep cs with
      | r :: rs => (c :: r) :: rs
      | [] => [[c]]

/-- String-level wrapper of `jsSplit`. -/
def jsSplitStr (sep : Char) (s : String) : List String :=
  (jsSplit sep s.data).map (fun l => String.mk l)

/-- List-level `startsWith`. -/
def listStartsWith : List Char → List Char → Bool
  | [], _ => true
  | _ :: _, [] => false
  | p :: ps, c :: cs => p = c && listStartsWith ps cs

/-- JS `s.startsWith(pre)`. -/
def jsStartsWith (s pre : String) : Bool :=
  listStartsWith pre.data s.data

/-- Six-bit value of a base64 alphabet character (`=` and anything else
is skipped, as Node's decoder does). -/
def b64Val (c : Char) : Option Nat :=
  if 'A' ≤ c ∧ c ≤ 'Z' then some (c.toNat - 65)
  else if 'a' ≤ c ∧ c ≤ 'z' then some (c.toNat - 71)
  else if '0' ≤ c ∧ c ≤ '9' then some (c.toNat + 4)
  else if c = '+' then some 62
  else if c = '/' then some 63
  else none

/-- Regroup a list of six-bit values into bytes (standard base64). -/
def b64Bytes : List Nat → List Nat
  | a :: b :: c :: d :: rest =>
      (a * 4 + b / 16) :: ((b % 16) * 16 + c / 4) :: ((c % 4) * 64 + d) :: b64Bytes rest
  | [a, b] => [a * 4 + b / 16]
  | [a, b, c] => [a * 4 + b / 16, (b % 16) * 16 + c / 4]
  | _ => []

/-- Models `Buffer.from(s, "base64").toString("utf-8")` for ASCII
payloads (each decoded byte below 128 is one character). -/
def b64DecodeAscii (s : String) : String :=
  String.mk ((b64Bytes (s.data.filterMap b64Val)).map Char.ofNat)

/-- The environment variables the handlers read, each a
`string | undefined`. -/
structure Env where
  ADMIN_USER : Option String
  ADMIN_PASS : Option String
  DATABASE_URL : Option String
  BLOB_READ_WRITE_TOKEN : Option String
  MAX_FILE_MB : Option String

/-- Result shape of `checkBasicAuthSync`:
`{ authorized, status?, headers }` with the `WWW-Authenticate` header
tracked as a flag. -/
structure AuthCheck where
  authorized : Bool
  status : Option Nat
  wwwAuthenticate : Bool
  deriving DecidableEq

/-- The common 401 failure result of `checkBasicAuthSync`. -/
def authFail401 : AuthCheck := ⟨false, some 401, true⟩

/-- The credential comparison of `checkBasicAuthSync`
(src/api/_lib/basicAuth.js lines 67–73): split the decoded string on
every `:` and compare the first segment to the user, the second to the
password. -/
def credentialsMatch (adminUser adminPass credentials : String) : Bool :=
  let parts := jsSplitStr ':' credentials
  decide (parts[0]? = some adminUser) && decide (parts[1]? = some adminPass)

/-- Function `checkBasicAuthSync` from src/api/_lib/basicAuth.js, over the
extracted `Authorization` header value.  `decode` stands for
`Buffer.from(·, "base64").toString("utf-8")`. -/
def checkBasicAuthSync (decode : String → String) (env : Env)
    (authHeader : Option String) : AuthCheck :=
  if falsyStr env.ADMIN_USER || falsyStr env.ADMIN_PASS then
    ⟨false, some 500, false⟩
  else
    match authHeader with
    | none => authFail401
    | some h =>
      if h = "" then authFail401
      else if ¬ jsStartsWith h "Basic " then authFail401
      else
        match (jsSplitStr ' ' h).get? 1 with
        | none => authFail401
        | some b64 =>
          if b64 = "" then authFail401
          else if credentialsMatch (env.ADMIN_USER.getD "") (env.ADMIN_PASS.getD "")
              (decode b64) then
            ⟨true, none, false⟩
          else authFail401

/-- The inline `requireAuth` of src/api/photos.js (lines 18–57): same
header parsing, but the secrets fall back to the defaults
`"Admin"` / `"magzme1234"` when the environment variables are absent. -/
def photosRequireAuth (decode : String → String) (env : Env)
    (authHeader : Option String) : Bool :=
  match authHeader with
  | none => false
  | some h =>
    if h = "" then false
    else if ¬ jsStartsWith h "Basic " then false
    else
      match (jsSplitStr ' ' h).get? 1 with
      | none => false
      | some b64 =>
        if b64 = "" then false
        else credentialsMatch (jsOr env.ADMIN_USER "Admin") (jsOr env.ADMIN_PASS "magzme1234")
          (decode b64)

/-! ## Upload pipeline (src/api/photos/upload.js and src/api/photos.js) -/

/-- Constant `ALLOWED_MIME_TYPES` from src/api/photos/upload.js line 11 and
src/api/photos.js line 15. -/
def ALLOWED_MIME_TYPES : List String :=
  ["image/jpeg", "image/png", "image/webp", "image/jpg"]

/-- JS `s.toLowerCase()` (the handler only compares ASCII MIME names). -/
def jsToLower (s : String) : String := String.mk (s.data.map Char.toLower)

/-- The check `ALLOWED_MIME_TYPES.includes(mimeType?.toLowerCase())`; an undefined
declared type is never in the list. -/
def mimeAllowed (mimeType : Option String) : Bool :=
  match mimeType with
  | none => false
  | some m => ALLOWED_MIME_TYPES.contains (jsToLower m)

/-- Constant `MAX_FILE_SIZE = parseInt(process.env.MAX_FILE_MB || "10") * 1024 * 1024`,
as a function of the configured number of megabytes (default 10). -/
def MAX_FILE_SIZE (maxFileMB : Nat) : Nat := maxFileMB * 1024 * 1024

/-- JS `s.trim()` (ASCII whitespace). -/
def jsTrim (s : String) : String :=
  String.mk (((s.data.dropWhile Char.isWhitespace).reverse.dropWhile
    Char.isWhitespace).reverse)

/-- The single `file`-named multipart field: `info.filename`,
`info.mimeType` and a stream of data chunks.  The handler's logic uses
a chunk only through `chunk.length` and forwards the raw bytes
unchanged to the blob store, so a chunk is represented by its byte
count.  The shape serves both for the raw incoming field and, through
`busboyFileInfo`, for the stream as busboy delivers it under the
configured `fileSize` limit. -/
structure FileInfo where
  filename : Option String
  mimeType : Option String
  chunks : List Nat

/-- Running state of the `file.on("data")` listener: the byte counter
`size` and the pending `uploadError` (status, message). -/
structure StreamState where
  size : Nat
  uploadError : Option (Nat × String)
  deriving DecidableEq

/-- One `file.on("data")` event: push the chunk, add its length, and
set the 400 size error the moment the running total exceeds the
limit. -/
def processChunk (maxFileSize : Nat) (st : StreamState) (len : Nat) : StreamState :=
  if st.size + len > maxFileSize then ⟨st.size + len, some (400, "File too large")⟩
  else ⟨st.size + len, st.uploadError⟩

/-- Handler-local state once busboy has emitted all events for the
request: `fileName`, `mimeType`, the concatenated `fileData` (by its
length; set at `end` only when no error is pending) and `uploadError`. -/
structure BBState where
  fileName : Option String
  mimeType : Option String
  fileData : Option Nat
  uploadError : Option (Nat × String)
  deriving DecidableEq

/-- The `bb.on("file")` listener of both upload handlers: reject a
declared MIME type outside the allow-list with 400 before consuming the
stream, otherwise count bytes chunk by chunk; on `end` with no pending
error, the buffered data is kept.  Fields not named `file` are drained
and ignored, so only the `file` field is modelled.  At wire level the
chunks reaching these listeners are the ones busboy delivers under its
configured `fileSize` limit (see `busboyFileInfo` and the wire-level
handlers). -/
def runFileEvents (maxFileSize : Nat) : Option FileInfo → BBState
  | none => ⟨none, none, none, none⟩
  | some info =>
    if ¬ mimeAllowed info.mimeType then
      ⟨info.filename, info.mimeType, none,
       some (400, "Only JPEG, PNG, and WebP images are allowed")⟩
    else
      let st := info.chunks.foldl (processChunk maxFileSize) ⟨0, none⟩
      ⟨info.filename, info.mimeType,
       if st.uploadError = none then some st.size else none,
       st.uploadError⟩

/-- Result of `put(name, bytes, {access: "public"})` when the call
returns: the blob URL. -/
structure BlobResult where
  url : String

/-- A row committed by `prisma.photo.create` (fields absent from the
`data` object are `none`). -/
structure PhotoRow where
  originalName : Option String
  mimeType : Option String
  size : Nat
  blobUrl : Option String
  deriving DecidableEq

/-- Observable outcome of one upload request: HTTP status, the
`put` calls issued to the Blob Store (name, byte count), and the rows
inserted into the Metadata Store. -/
structure UploadOutcome where
  status : Nat
  blobWrites : List (String × Nat)
  created : List PhotoRow
  deriving DecidableEq

/-- The `bb.on("finish")` stage of src/api/photos/upload.js
(lines 74–135): pending error → its status; no file → 400; otherwise
`put`, then `photo.create`, 201 on success and 500 on any exception.
`putResult` is the Blob Store call's outcome (`.error` = the promise
rejected), `createOk` tells whether the metadata insert succeeds. -/
def uploadJsFinish (st : BBState) (putResult : Except Unit BlobResult)
    (createOk : Bool) : UploadOutcome :=
  match st.uploadError with
  | some (s, _) => ⟨s, [], []⟩
  | none =>
    if st.fileData = none ∨ jsFalsyOptStr st.fileName then ⟨400, [], []⟩
    else
      let data := st.fileData.getD 0
      let name := st.fileName.getD ""
      match putResult with
      | .error _ => ⟨500, [(name, data)], []⟩
      | .ok blob =>
        if createOk then
          ⟨201, [(name, data)],
           [⟨some name, some (jsOr st.mimeType "image/png"), data, some blob.url⟩]⟩
        else ⟨500, [(name, data)], []⟩

/-- Whole handler of src/api/photos/upload.js: 405 for non-POST, then
the busboy events and the finish stage. -/
def uploadJsHandler (maxFileMB : Nat) (method : String) (field : Option FileInfo)
    (putResult : Except Unit BlobResult) (createOk : Bool) : UploadOutcome :=
  if method ≠ "POST" then ⟨405, [], []⟩
  else uploadJsFinish (runFileEvents (MAX_FILE_SIZE maxFileMB) field) putResult createOk

/-- The `bb.on("finish")` stage of the consolidated src/api/photos.js
multipart upload (lines 286–367): pending error → its status; no file →
400 `NO_FILE`; missing blob token → 500; then `put`; an empty/blank or
non-`https://` returned URL throws (caught as 500) **before**
`photo.create`; otherwise the row `{blobUrl, size, createdAt}` is
inserted and the handler answers 201. -/
def photosJsFinish (env : Env) (st : BBState) (putResult : Except Unit BlobResult)
    (createOk : Bool) : UploadOutcome :=
  match st.uploadError with
  | some (s, _) => ⟨s, [], []⟩
  | none =>
    if st.fileData = none ∨ jsFalsyOptStr st.fileName then ⟨400, [], []⟩
    else
      let data := st.fileData.getD 0
      let name := st.fileName.getD ""
      if falsyStr env.BLOB_READ_WRITE_TOKEN then ⟨500, [], []⟩
      else
        match putResult with
        | .error _ => ⟨500, [(name, data)], []⟩
        | .ok blob =>
          if blob.url = "" ∨ jsTrim blob.url = "" then ⟨500, [(name, data)], []⟩
          else if ¬ jsStartsWith blob.url "https://" then ⟨500, [(name, data)], []⟩
          else if createOk then
            ⟨201, [(name, data)], [⟨none, none, data, some blob.url⟩]⟩
          else ⟨500, [(name, data)], []⟩

/-- The multipart-upload path of src/api/photos.js: the handler first
fast-fails with 500 when `DATABASE_URL` or `BLOB_READ_WRITE_TOKEN` is
absent (lines 225–240), then runs busboy and the finish stage. -/
def photosJsUploadHandler (env : Env) (maxFileMB : Nat) (field : Option FileInfo)
    (putResult : Except Unit BlobResult) (createOk : Bool) : UploadOutcome :=
  if falsyStr env.DATABASE_URL then ⟨500, [], []⟩
  else if falsyStr env.BLOB_READ_WRITE_TOKEN then ⟨500, [], []⟩
  else photosJsFinish env (runFileEvents (MAX_FILE_SIZE maxFileMB) field) putResult createOk

/-- Busboy's enforcement of `limits: { fileSize }` (both handlers
configure it with `MAX_FILE_SIZE`): the file stream is truncated at the
limit — data listeners receive bytes only until the running total
reaches `fileSize`, the chunk that would cross it is cut down to the
remaining allowance, and nothing further is delivered (the stream is
marked truncated and a `limit` event fires, which neither handler
listens for). -/
def truncateChunks : Nat → List Nat → List Nat
  | _, [] => []
  | fileSize, c :: cs =>
    if c ≤ fileSize then c :: truncateChunks (fileSize - c) cs
    else if fileSize = 0 then []
    else [fileSize]

/-- The `file` field as the handler's listeners actually see it: the
declared name and MIME type pass through unchanged, the chunk stream is
what busboy delivers under its configured `fileSize` limit. -/
def busboyFileInfo (maxFileSize : Nat) (info : FileInfo) : FileInfo :=
  ⟨info.filename, info.mimeType, truncateChunks maxFileSize info.chunks⟩

/-- Wire-level src/api/photos/upload.js handler: the incoming field's
raw chunks pass through busboy's `fileSize` truncation before reaching
the handler's listeners. -/
def uploadJsHandlerWire (maxFileMB : Nat) (method : String) (rawField : Option FileInfo)
    (putResult : Except Unit BlobResult) (createOk : Bool) : UploadOutcome :=
  uploadJsHandler maxFileMB method
    (rawField.map (busboyFileInfo (MAX_FILE_SIZE maxFileMB))) putResult createOk

/-- Wire-level multipart-upload path of src/api/photos.js, with
busboy's `fileSize` truncation applied to the incoming field. -/
def photosJsUploadHandlerWire (env : Env) (maxFileMB : Nat) (rawField : Option FileInfo)
    (putResult : Except Unit BlobResult) (createOk : Bool) : UploadOutcome :=
  photosJsUploadHandler env maxFileMB
    (rawField.map (busboyFileInfo (MAX_FILE_SIZE maxFileMB))) putResult createOk

/-! ## Listing / pagination (src/api/photos.js op=list, src/api/photos/list.js,
src/api/admin/photos/index.js, Express admin router) -/

/-- JS `v || 50` on a number: `NaN` (here `none`) and `0` are falsy and
fall back to the default. -/
def jsNumOr50 : Option Int → Int
  | none => 50
  | some n => if n = 0 then 50 else n

/-- Effective limit of src/api/photos.js `op=list` (line 87):
`Math.max(1, Math.min(100, Number(limitRaw ?? 50) || 50))`.  The input
is the numeric value of the `limit` query parameter; `none` stands for
non-numeric input (`NaN`), and a missing parameter behaves like
`some 50` (`Number(limitRaw ?? 50)` evaluates to 50). -/
def photosJsLimit (p : Option Int) : Int :=
  max 1 (min 100 (jsNumOr50 p))

/-- Effective limit of src/api/photos/list.js (lines 63–68):
`Math.min(Math.max(1, parseInt(limitParam || "50", 10) || 50), 200)`.
`none` stands for `NaN`; a missing or empty parameter behaves like
`some 50` (`parseInt("50")`). -/
def listJsLimit (p : Option Int) : Int :=
  min (max 1 (jsNumOr50 p)) 200

/-- Effective limit of src/api/admin/photos/index.js (line 284):
`Math.min(Math.max(1, parseInt(url.searchParams.get("limit") || "50", 10) || 50), 200)`. -/
def adminPhotosLimit (p : Option Int) : Int :=
  min (max 1 (jsNumOr50 p)) 200

/-- Effective limit of the Express admin router `GET /admin/photos`
(src/unnamed/part_001 line 168): `Math.min(parseInt(req.query.limit) || 50, 100)`
— no lower clamp. -/
def expressAdminLimit (p : Option Int) : Int :=
  min (jsNumOr50 p) 100

/-- A row of the `photos` table as the list handlers select it.  A
table list stands for the rows in `createdAt`-descending order, the
order every `findMany({orderBy: {createdAt: "desc"}})` here requests. -/
structure DbPhoto where
  id : String
  originalName : Option String
  blobUrl : Option String
  size : Option Nat
  createdAt : Nat
  deriving DecidableEq

/-- The `where` clause of src/api/photos.js `op=list` (lines 90–95):
`AND [{blobUrl: {not: null}}, {blobUrl: {not: ""}}]`. -/
def blobUrlPresent (p : DbPhoto) : Bool :=
  match p.blobUrl with
  | none => false
  | some s => s ≠ ""

/-- Response item of src/api/photos.js `op=list`. -/
structure OpListItem where
  id : String
  blobUrl : Option String
  hasUrl : Bool
  size : Option Nat
  createdAt : Nat
  deriving DecidableEq

/-- The item mapping of src/api/photos.js `op=list` (lines 100–109):
`const url = (p.blobUrl ?? "").trim() || null; ... hasUrl: !!url`. -/
def opListItem (p : DbPhoto) : OpListItem :=
  let url : Option String :=
    let t := jsTrim (p.blobUrl.getD "")
    if t = "" then none else some t
  ⟨p.id, url, url.isSome, p.size, p.createdAt⟩

/-- The `op=list` response items of src/api/photos.js: filtered query,
`take limit`, then the item mapping. -/
def photosOpList (table : List DbPhoto) (limit : Nat) : List OpListItem :=
  ((table.filter blobUrlPresent).take limit).map opListItem

/-- Response item of the cursor-based src/api/photos/list.js: no
`hasUrl`/`status` field exists in this shape. -/
structure CursorItem where
  id : String
  originalName : Option String
  url : Option String
  size : Option Nat
  createdAt : Nat
  deriving DecidableEq

/-- The item mapping of src/api/photos/list.js (lines 131–137):
`url: photo.blobUrl || null` and nothing else about missing URLs. -/
def cursorItem (p : DbPhoto) : CursorItem :=
  ⟨p.id, p.originalName,
   (match p.blobUrl with
    | none => none
    | some s => if s = "" then none else some s),
   p.size, p.createdAt⟩

/-- Response of src/api/photos/list.js. -/
structure CursorListResponse where
  status : Nat
  items : List CursorItem
  nextCursor : Option String
  deriving DecidableEq

/-- The cursor-based list handler of src/api/photos/list.js: requires
`DATABASE_URL`, clamps the limit, fetches `limit + 1` rows starting
after the cursor row, trims to `limit`, and derives `nextCursor`.  It
applies **no** filter and **no** flag to rows whose `blobUrl` is
null/empty. -/
def listJsHandler (env : Env) (table : List DbPhoto) (limitParam : Option Int)
    (cursor : Option String) : CursorListResponse :=
  if falsyStr env.DATABASE_URL then ⟨500, [], none⟩
  else
    let limit := (listJsLimit limitParam).toNat
    let rows : List DbPhoto :=
      match cursor with
      | none => table
      | some cid => (table.dropWhile (fun p => DbPhoto.id p ≠ cid)).drop 1
    let photos := rows.take (limit + 1)
    let hasNextPage := photos.length > limit
    let items := if hasNextPage then photos.take limit else photos
    let nextCursor :=
      if hasNextPage ∧ items ≠ [] then (List.getLast? items).map DbPhoto.id else none
    ⟨200, items.map cursorItem, nextCursor⟩

/-- Response item of the flagging list variant (second handler in
src/api/photos/list.js): carries `hasUrl` and `status`. -/
structure FlagItem where
  id : String
  blobUrl : Option String
  size : Nat
  createdAt : Nat
  hasUrl : Bool
  status : String
  deriving DecidableEq

/-- The item mapping of the flagging list variant:
`const url = photo.blobUrl ?? null; const hasUrl = Boolean(url && url.trim().length > 0);
status: hasUrl ? "ready" : "legacy_missing_url"`. -/
def flagListItem (p : DbPhoto) : FlagItem :=
  let hasUrl : Bool :=
    match p.blobUrl with
    | none => false
    | some s => if s = "" then false else (jsTrim s).length > 0
  ⟨p.id, p.blobUrl, p.size.getD 0, p.createdAt, hasUrl,
   if hasUrl then "ready" else "legacy_missing_url"⟩

/-- The flagging list variant: no `where` clause, `take limit`, then
the flagging item mapping. -/
def flagListHandler (table : List DbPhoto) (limitParam : Option Int) : List FlagItem :=
  (table.take (photosJsLimit limitParam).toNat).map flagListItem

/-! ## Deletion service (src/unnamed/part_005, POST /api/admin/photos/[id]/delete) -/

/-- The fields of a Photo row the delete handler reads. -/
structure DelPhoto where
  id : String
  blobUrl : Option String
  deriving DecidableEq

/-- Observable outcome of one delete request. -/
structure DeleteOutcome where
  status : Nat
  location : Option String
  blobDelAttempted : Bool
  dbDeleted : Bool
  deriving DecidableEq

/-- The delete handler of src/unnamed/part_005 (lines 13–163): POST
only, env and Basic-Auth checks, id required, `findUnique` lookup, then
`del(photo.blobUrl)` wrapped in a try/catch whose failure is only
logged (`blobDel`'s value is deliberately ignored, as the source
swallows the exception), then `photo.delete` and a 302 redirect. -/
def adminDeleteHandler (decode : String → String) (env : Env) (method : String)
    (authHeader : Option String) (id : Option String)
    (lookup : Except Unit (Option DelPhoto))
    (_blobDel : Except Unit Unit) (dbDel : Except Unit Unit) : DeleteOutcome :=
  if method ≠ "POST" then ⟨405, none, false, false⟩
  else if falsyStr env.ADMIN_USER || falsyStr env.ADMIN_PASS then ⟨500, none, false, false⟩
  else if falsyStr env.DATABASE_URL then ⟨500, none, false, false⟩
  else if ¬ (checkBasicAuthSync decode env authHeader).authorized then
    ⟨(checkBasicAuthSync decode env authHeader).status.getD 401, none, false, false⟩
  else if jsFalsyOptStr id then ⟨400, none, false, false⟩
  else
    match lookup with
    | .error _ => ⟨500, none, false, false⟩
    | .ok none => ⟨404, none, false, false⟩
    | .ok (some photo) =>
      let attempted := !jsFalsyOptStr photo.blobUrl && !falsyStr env.BLOB_READ_WRITE_TOKEN
      match dbDel with
      | .error _ => ⟨500, none, attempted, false⟩
      | .ok _ => ⟨302, some "/admin/photos?deleted=1", attempted, true⟩

/-- The fields of a Photo row the Express delete route reads. -/
structure ExpressDelPhoto where
  id : String
  storagePath : Option String
  deriving DecidableEq

/-- The Express router delete `POST /admin/photos/:id/delete`
(src/unnamed/part_001 lines 293–330): `findUnique` lookup (404 when
absent), `path.join(uploadsDir, photo.storagePath)` (a null
`storagePath` makes `path.join` throw, landing in the outer catch as
500), then — only when the resolved file path starts with the resolved
uploads directory — an `fs.unlink` wrapped in a try/catch whose failure
is only warned (`_unlinkResult` is deliberately ignored, as the source
swallows the error), then `photo.delete` and the redirect to
`/admin/photos?deleted=1`.  `resolvedPath` and `resolvedUploadsDir` are
the outputs of the external `path.resolve` calls. -/
def expressDeleteHandler (lookup : Except Unit (Option ExpressDelPhoto))
    (resolvedPath resolvedUploadsDir : String)
    (_unlinkResult : Except Unit Unit) (dbDel : Except Unit Unit) : DeleteOutcome :=
  match lookup with
  | .error _ => ⟨500, none, false, false⟩
  | .ok none => ⟨404, none, false, false⟩
  | .ok (some photo) =>
    match photo.storagePath with
    | none => ⟨500, none, false, false⟩
    | some _ =>
      let attempted := jsStartsWith resolvedPath resolvedUploadsDir
      match dbDel with
      | .error _ => ⟨500, none, attempted, false⟩
      | .ok _ => ⟨302, some "/admin/photos?deleted=1", attempted, true⟩

/-! ## Filename sanitization (src/unnamed/part_001 lines 336–342,
src/unnamed/part_005 lines 172–178) -/

/-- The backslash character. -/
def backslashChar : Char := Char.ofNat 92

/-- The double-quote character. -/
def quoteChar : Char := Char.ofNat 34

/-- The single-quote character. -/
def singleQuoteChar : Char := Char.ofNat 39

/-- A control character in `0x00–0x1F` or `0x7F`. -/
def ctrlChar (c : Char) : Bool := c.toNat ≤ 31 || c.toNat = 127

/-- Function `sanitizeFilename`: replace `/` and `\` by `_`, remove control
characters, replace `"` by a single quote, truncate to 255. -/
def sanitizeFilename (s : List Char) : List Char :=
  ((((s.map (fun c => if c = '/' ∨ c = backslashChar then '_' else c)).filter
      (fun c => !ctrlChar c)).map
      (fun c => if c = quoteChar then singleQuoteChar else c)).take 255)

/-- String-level `sanitizeFilename`. -/
def sanitizeFilenameStr (s : String) : String := String.mk (sanitizeFilename s.data)

/-- The multer `fileFilter` of the Express server (src/unnamed/part_000
lines 111–118): `file.mimetype.startsWith("image/")` accepts, anything
else is rejected. -/
def multerFileFilterAccepts (mimetype : String) : Bool :=
  jsStartsWith mimetype "image/"

/-! ## Helper lemmas -/

theorem jsSplit_ne_nil (sep : Char) (l : List Char) : jsSplit sep l ≠ [] := by
  cases l with
  | nil => simp [jsSplit]
  | cons c cs =>
    rw [jsSplit]
    by_cases hc : c = sep
    · simp [hc]
    · simp only [hc, if_false]
      cases jsSplit sep cs with
      | nil => simp
      | cons r rs => simp

/-- No segment produced by `jsSplit` contains the separator. -/
theorem jsSplit_sep_not_mem (sep : Char) (l : List Char) :
    ∀ x ∈ jsSplit sep l, sep ∉ x := by
  induction l with
  | nil =>
    intro x hx
    simp [jsSplit] at hx
    simp [hx]
  | cons c cs ih =>
    intro x hx
    rw [jsSplit] at hx
    by_cases hc : c = sep
    · simp only [hc, if_true] at hx
      rcases List.mem_cons.mp hx with h | h
      · simp [h]
      · exact ih x h
    · simp only [hc, if_false] at hx
      rcases hr : jsSplit sep cs with _ | ⟨r, rs⟩
      · exact absurd hr (jsSplit_ne_nil sep cs)
      · rw [hr] at hx
        rcases List.mem_cons.mp hx with h | h
        · subst h
          intro hmem
          rcases List.mem_cons.mp hmem with h1 | h1
          · exact hc h1.symm
          · exact ih r (by rw [hr]; exact List.mem_cons_self r rs) h1
        · exact ih x (by rw [hr]; exact List.mem_cons_of_mem r h)

/-- A password containing a colon never survives the split-and-compare:
the second `split(":")` segment cannot contain `:`. -/
theorem credentialsMatch_colon_pass (u p c : String)
    (hc : (':' : Char) ∈ p.data) : credentialsMatch u p c = false := by
  have h2 : (jsSplitStr ':' c)[1]? ≠ some p := by
    intro h
    unfold jsSplitStr at h
    rw [List.getElem?_map] at h
    rcases Option.map_eq_some'.mp h with ⟨x, hx, hxp⟩
    have hx2 : (jsSplit ':' c.data).get? 1 = some x := by
      rw [List.get?_eq_getElem?]
      exact hx
    have hmem : x ∈ jsSplit ':' c.data := List.get?_mem hx2
    have hns := jsSplit_sep_not_mem ':' c.data x hmem
    apply hns
    have : p.data = x := by rw [← hxp]
    rw [← this]
    exact hc
  unfold credentialsMatch
  simp [h2]

/-- The byte counter of the `data`-event fold. -/
theorem processChunk_foldl_size (maxFileSize : Nat) (chunks : List Nat) :
    ∀ st : StreamState,
      (chunks.foldl (processChunk maxFileSize) st).size = st.size + chunks.sum := by
  induction chunks with
  | nil => intro st; simp
  | cons len rest ih =>
    intro st
    rw [List.foldl_cons, ih]
    have hstep : (processChunk maxFileSize st len).size = st.size + len := by
      unfold processChunk
      split <;> rfl
    rw [hstep, List.sum_cons]
    omega

/-- The fold's error is the starting error or the 400 size error. -/
theorem processChunk_foldl_error_shape (maxFileSize : Nat) (chunks : List Nat) :
    ∀ st : StreamState,
      (chunks.foldl (processChunk maxFileSize) st).uploadError = st.uploadError ∨
      (chunks.foldl (processChunk maxFileSize) st).uploadError
        = some (400, "File too large") := by
  induction chunks with
  | nil => intro st; left; rfl
  | cons len rest ih =>
    intro st
    rw [List.foldl_cons]
    rcases ih (processChunk maxFileSize st len) with h | h
    · rw [h]
      unfold processChunk
      split
      · right; rfl
      · left; rfl
    · right; exact h

/-- If the total byte count stays within the limit, no error is ever
set by the fold. -/
theorem processChunk_foldl_no_error (maxFileSize : Nat) (chunks : List Nat) :
    ∀ st : StreamState, st.uploadError = none →
      st.size + chunks.sum ≤ maxFileSize →
      (chunks.foldl (processChunk maxFileSize) st).uploadError = none := by
  induction chunks with
  | nil => intro st he _; exact he
  | cons len rest ih =>
    intro st he hle
    rw [List.foldl_cons]
    rw [List.sum_cons] at hle
    have hstep : processChunk maxFileSize st len = ⟨st.size + len, none⟩ := by
      unfold processChunk
      rw [if_neg (by omega), he]
    rw [hstep]
    exact ih _ rfl (by simp; omega)

/-- The instant the running total passes the limit the 400 size error is
recorded, whatever the state was before; it is still there at the end of
the fold. -/
theorem processChunk_foldl_error (maxFileSize : Nat) (chunks : List Nat) :
    ∀ st : StreamState, maxFileSize < st.size + chunks.sum → chunks ≠ [] →
      (chunks.foldl (processChunk maxFileSize) st).uploadError
        = some (400, "File too large") := by
  induction chunks with
  | nil => intro st _ hne; exact absurd rfl hne
  | cons len rest ih =>
    intro st hgt _
    rw [List.foldl_cons]
    rw [List.sum_cons] at hgt
    by_cases hr : rest = []
    · subst hr
      simp only [List.foldl_nil]
      unfold processChunk
      rw [if_pos (by simp at hgt; omega)]
    · apply ih _ _ hr
      have hstep : (processChunk maxFileSize st len).size = st.size + len := by
        unfold processChunk
        split <;> rfl
      rw [hstep]
      omega

/-- Running `runFileEvents` on an allowed MIME type within the size limit. -/
theorem runFileEvents_ok (maxFileSize : Nat) (info : FileInfo)
    (hm : mimeAllowed info.mimeType = true)
    (hs : info.chunks.sum ≤ maxFileSize) :
    runFileEvents maxFileSize (some info)
      = ⟨info.filename, info.mimeType, some info.chunks.sum, none⟩ := by
  simp only [runFileEvents]
  rw [if_neg (by simp [hm])]
  have he : (info.chunks.foldl (processChunk maxFileSize) ⟨0, none⟩).uploadError = none :=
    processChunk_foldl_no_error maxFileSize info.chunks ⟨0, none⟩ rfl (by simpa using hs)
  have hsz : (info.chunks.foldl (processChunk maxFileSize) ⟨0, none⟩).size
      = info.chunks.sum := by
    rw [processChunk_foldl_size]
    simp
  simp [he, hsz]

/-- Running `runFileEvents` on an allowed MIME type whose payload exceeds the
limit: the 400 size error is pending and no file data is kept. -/
theorem runFileEvents_too_large (maxFileSize : Nat) (info : FileInfo)
    (hm : mimeAllowed info.mimeType = true)
    (hs : maxFileSize < info.chunks.sum) :
    runFileEvents maxFileSize (some info)
      = ⟨info.filename, info.mimeType, none, some (400, "File too large")⟩ := by
  simp only [runFileEvents]
  rw [if_neg (by simp [hm])]
  have hne : info.chunks ≠ [] := by
    intro h
    rw [h] at hs
    simp at hs
  have he : (info.chunks.foldl (processChunk maxFileSize) ⟨0, none⟩).uploadError
      = some (400, "File too large") :=
    processChunk_foldl_error maxFileSize info.chunks ⟨0, none⟩ (by simpa using hs) hne
  simp [he]

/-- Running `runFileEvents` on a declared type outside the allow-list. -/
theorem runFileEvents_bad_mime (maxFileSize : Nat) (info : FileInfo)
    (hm : mimeAllowed info.mimeType = false) :
    runFileEvents maxFileSize (some info)
      = ⟨info.filename, info.mimeType, none,
         some (400, "Only JPEG, PNG, and WebP images are allowed")⟩ := by
  simp only [runFileEvents]
  rw [if_pos (by simp [hm])]

/-- Busboy never delivers more bytes than its configured limit. -/
theorem truncateChunks_sum_le (fileSize : Nat) (chunks : List Nat) :
    (truncateChunks fileSize chunks).sum ≤ fileSize := by
  induction chunks generalizing fileSize with
  | nil => simp [truncateChunks]
  | cons c cs ih =>
    rw [truncateChunks]
    by_cases hc : c ≤ fileSize
    · rw [if_pos hc]
      have := ih (fileSize - c)
      simp only [List.sum_cons]
      omega
    · rw [if_neg hc]
      by_cases h0 : fileSize = 0
      · simp [h0]
      · simp [h0]

/-- Through busboy's configured `fileSize` truncation the handlers'
"File too large" branch is unreachable: the delivered total never
exceeds the limit, so `runFileEvents` never records the 400 size
error, whatever the raw payload was. -/
theorem size_error_unreachable_through_busboy (maxFileSize : Nat) (info : FileInfo) :
    (runFileEvents maxFileSize (some (busboyFileInfo maxFileSize info))).uploadError
      ≠ some (400, "File too large") := by
  by_cases hm : mimeAllowed info.mimeType
  · rw [runFileEvents_ok maxFileSize (busboyFileInfo maxFileSize info)
      (by simpa [busboyFileInfo] using hm)
      (by simpa [busboyFileInfo] using truncateChunks_sum_le maxFileSize info.chunks)]
    simp
  · rw [runFileEvents_bad_mime maxFileSize (busboyFileInfo maxFileSize info)
      (by simp [busboyFileInfo]; simpa using hm)]
    simp

/-! ## Claims -/

/-- C1: in both upload handlers the `photo.create` insert sits only on
the success path of the awaited Blob Store `put`; when the blob write
fails (the promise rejects), the catch answers 500 and the Metadata
Store gains zero rows from that request, for every request state. -/
theorem upload_no_row_when_blob_write_fails
    (maxFileMB : Nat) (method : String) (field : Option FileInfo)
    (createOk : Bool) (env : Env) :
    (uploadJsHandler maxFileMB method field (Except.error ()) createOk).created = [] ∧
    (photosJsUploadHandler env maxFileMB field (Except.error ()) createOk).created = [] := by
  refine ⟨?_, ?_⟩
  · unfold uploadJsHandler uploadJsFinish
    repeat' split
    all_goals first | rfl | contradiction
  · unfold photosJsUploadHandler photosJsFinish
    repeat' split
    all_goals first | rfl | contradiction

/-- C2 counterexample: the inline `requireAuth` of src/api/photos.js is
also an Access Control Gate named by the claim, and with both
`ADMIN_USER` and `ADMIN_PASS` absent it falls back to the hard-coded
defaults and returns `authorized: true` for a request carrying
`Basic Admin:magzme1234` — access is silently allowed under missing
configuration. -/
theorem photosRequireAuth_authorizes_without_config :
    photosRequireAuth b64DecodeAscii ⟨none, none, none, none, none⟩
      (some "Basic QWRtaW46bWFnem1lMTIzNA==") = true := by decide

/-- C2 (amended): the shared gate `checkBasicAuthSync` returns
`authorized: false` with status 500 whenever either configured secret is
absent or empty, for any `Authorization` header; the inline `requireAuth`
of src/api/photos.js, however, substitutes default credentials and can
still authorize (see the counterexample). -/
theorem checkBasicAuthSync_missing_config_denies
    (decode : String → String) (env : Env) (header : Option String)
    (hm : falsyStr env.ADMIN_USER = true ∨ falsyStr env.ADMIN_PASS = true) :
    (checkBasicAuthSync decode env header).authorized = false ∧
    (checkBasicAuthSync decode env header).status = some 500 := by
  have hcond : (falsyStr env.ADMIN_USER || falsyStr env.ADMIN_PASS) = true := by
    rcases hm with h | h <;> simp [h]
  unfold checkBasicAuthSync
  rw [if_pos hcond]
  exact ⟨rfl, rfl⟩

/-- Witness for C2 (amended): `ADMIN_USER` absent, a well-formed header
carried, and the gate still denies with 500. -/
theorem checkBasicAuthSync_missing_config_denies_witness :
    (checkBasicAuthSync b64DecodeAscii ⟨none, some "pw", none, none, none⟩
        (some "Basic dTphOmI=")).authorized = false ∧
    (checkBasicAuthSync b64DecodeAscii ⟨none, some "pw", none, none, none⟩
        (some "Basic dTphOmI=")).status = some 500 :=
  checkBasicAuthSync_missing_config_denies b64DecodeAscii
    ⟨none, some "pw", none, none, none⟩ (some "Basic dTphOmI=") (Or.inl rfl)

/-- C10: whenever the configured `ADMIN_PASS` contains a `:` character,
`checkBasicAuthSync` answers `authorized: false` for every request —
including one whose header encodes exactly `ADMIN_USER:ADMIN_PASS` —
because the compared password is a `split(":")` segment and such a
segment never contains a colon. -/
theorem colon_password_never_authorizes
    (decode : String → String) (env : Env) (header : Option String) (p : String)
    (hp : env.ADMIN_PASS = some p) (hc : (':' : Char) ∈ p.data) :
    (checkBasicAuthSync decode env header).authorized = false := by
  have hpass : env.ADMIN_PASS.getD "" = p := by rw [hp]; rfl
  unfold checkBasicAuthSync
  repeat' split
  all_goals try rfl
  rename_i hcm
  rw [hpass, credentialsMatch_colon_pass _ p _ hc] at hcm
  simp at hcm

/-- Witness for C10: password `a:b` configured, the header encoding
exactly `u:a:b` carried, and the gate still denies. -/
theorem colon_password_never_authorizes_witness :
    (checkBasicAuthSync b64DecodeAscii ⟨some "u", some "a:b", none, none, none⟩
        (some "Basic dTphOmI=")).authorized = false :=
  colon_password_never_authorizes b64DecodeAscii
    ⟨some "u", some "a:b", none, none, none⟩ (some "Basic dTphOmI=") "a:b" rfl (by decide)

/-- C3 counterexample: src/api/photos/upload.js performs **no**
validation of the URL returned by the blob write — with a `put` result
whose URL is the empty string it still inserts a Photo row (with an
empty `blobUrl`) and answers 201, not 500. -/
theorem uploadJs_inserts_row_for_empty_blob_url :
    uploadJsHandler 10 "POST" (some ⟨some "a.png", some "image/png", [3]⟩)
      (Except.ok ⟨""⟩) true
      = ⟨201, [("a.png", 3)], [⟨some "a.png", some "image/png", 3, some ""⟩]⟩ := by
  decide

/-- C3 (amended): the consolidated src/api/photos.js upload handler
does validate the returned URL — an empty/blank or non-`https://` URL
makes the request fail with 500 and the step-7 Photo insert is not
performed; the standalone src/api/photos/upload.js performs no such
validation (see the counterexample). -/
theorem photosJs_invalid_url_no_insert
    (env : Env) (st : BBState) (blob : BlobResult) (createOk : Bool)
    (he : st.uploadError = none) (hd : st.fileData ≠ none)
    (hn : jsFalsyOptStr st.fileName = false)
    (ht : falsyStr env.BLOB_READ_WRITE_TOKEN = false)
    (hu : jsTrim blob.url = "" ∨ jsStartsWith blob.url "https://" = false) :
    photosJsFinish env st (Except.ok blob) createOk
      = ⟨500, [(st.fileName.getD "", st.fileData.getD 0)], []⟩ := by
  rcases hu with hu | hu <;>
    (unfold photosJsFinish
     repeat' split
     all_goals simp_all)

/-- Witness for C3 (amended): a non-https blob URL makes the
consolidated handler answer 500 with no row inserted. -/
theorem photosJs_invalid_url_no_insert_witness :
    photosJsFinish ⟨none, none, none, some "tok", none⟩
        ⟨some "a.png", some "image/png", some 3, none⟩ (Except.ok ⟨"http://x"⟩) true
      = ⟨500, [("a.png", 3)], []⟩ :=
  photosJs_invalid_url_no_insert ⟨none, none, none, some "tok", none⟩
    ⟨some "a.png", some "image/png", some 3, none⟩ ⟨"http://x"⟩ true
    rfl (by decide) rfl rfl (Or.inr (by decide))

/-- C4 counterexample: the Express variant's multer `fileFilter`
(src/unnamed/part_000, a source the claim names) accepts **any**
`image/*` type — `image/gif` is outside the four-entry allow-list yet
is not rejected there, so the upload proceeds to the file write and the
metadata insert in that variant. -/
theorem multer_accepts_gif_outside_allow_list :
    multerFileFilterAccepts "image/gif" = true ∧
    ALLOWED_MIME_TYPES.contains "image/gif" = false := by decide

/-- C4 (amended): in the serverless upload handlers a declared MIME
type outside the allow-list (case-insensitively) is rejected with 400
before any blob write or metadata insert, and an allow-listed type
passes this validation step; the Express multer variant instead accepts
every `image/*` type (see the counterexample). -/
theorem mime_outside_allow_list_rejected_400
    (maxFileMB : Nat) (info : FileInfo) (put : Except Unit BlobResult)
    (createOk : Bool) (env : Env)
    (hdb : falsyStr env.DATABASE_URL = false)
    (ht : falsyStr env.BLOB_READ_WRITE_TOKEN = false) :
    (mimeAllowed info.mimeType = false →
      uploadJsHandler maxFileMB "POST" (some info) put createOk = ⟨400, [], []⟩ ∧
      photosJsUploadHandler env maxFileMB (some info) put createOk = ⟨400, [], []⟩) ∧
    (mimeAllowed info.mimeType = true →
      (runFileEvents (MAX_FILE_SIZE maxFileMB) (some info)).uploadError
        ≠ some (400, "Only JPEG, PNG, and WebP images are allowed")) := by
  constructor
  · intro hm
    have hrun := runFileEvents_bad_mime (MAX_FILE_SIZE maxFileMB) info hm
    constructor
    · unfold uploadJsHandler
      rw [if_neg (by simp), hrun]
      rfl
    · unfold photosJsUploadHandler
      rw [if_neg (by simp [hdb]), if_neg (by simp [ht]), hrun]
      rfl
  · intro hm hcontra
    by_cases hs : info.chunks.sum ≤ MAX_FILE_SIZE maxFileMB
    · rw [runFileEvents_ok _ _ hm hs] at hcontra
      simp at hcontra
    · rw [runFileEvents_too_large _ _ hm (by omega)] at hcontra
      exact (by decide :
        ¬ (some ((400 : Nat), "File too large")
            = some ((400 : Nat), "Only JPEG, PNG, and WebP images are allowed"))) hcontra

/-- Witness for C4 (amended): `image/gif` is rejected by both
serverless handlers with 400 and no writes, and `image/png` passes the
MIME validation step. -/
theorem mime_outside_allow_list_rejected_400_witness :
    (uploadJsHandler 10 "POST" (some ⟨some "a.gif", some "image/gif", [3]⟩)
        (Except.error ()) false = ⟨400, [], []⟩ ∧
      photosJsUploadHandler ⟨none, none, some "db", some "tok", none⟩ 10
        (some ⟨some "a.gif", some "image/gif", [3]⟩) (Except.error ()) false
        = ⟨400, [], []⟩) ∧
    (runFileEvents (MAX_FILE_SIZE 10) (some ⟨some "a.png", some "image/png", [3]⟩)).uploadError
      ≠ some (400, "Only JPEG, PNG, and WebP images are allowed") := by
  refine ⟨(mime_outside_allow_list_rejected_400 10 ⟨some "a.gif", some "image/gif", [3]⟩
      (Except.error ()) false ⟨none, none, some "db", some "tok", none⟩ rfl rfl).1
      (by decide), ?_⟩
  exact (mime_outside_allow_list_rejected_400 10 ⟨some "a.png", some "image/png", [3]⟩
      (Except.error ()) false ⟨none, none, some "db", some "tok", none⟩ rfl rfl).2
      (by decide)

/-- C5 (code bug shown): both handlers configure busboy with
`limits: { fileSize: MAX_FILE_SIZE }`, and busboy truncates the
delivered file stream at that limit, so the data listener's own
`size > MAX_FILE_SIZE` check — the 400 "File too large" branch the
claim and the spec describe — can never fire.  An upload one byte over
the default 10 MiB limit is truncated to exactly 10485760 bytes,
written to the Blob Store, inserted as a Photo row of size 10485760,
and answered 201 by both handlers. -/
theorem busboy_truncation_defeats_size_check :
    uploadJsHandlerWire 10 "POST" (some ⟨some "a.png", some "image/png", [10485761]⟩)
        (Except.ok ⟨"https://x"⟩) true
      = ⟨201, [("a.png", 10485760)],
         [⟨some "a.png", some "image/png", 10485760, some "https://x"⟩]⟩ ∧
    photosJsUploadHandlerWire ⟨none, none, some "db", some "tok", none⟩ 10
        (some ⟨some "a.png", some "image/png", [10485761]⟩)
        (Except.ok ⟨"https://x"⟩) true
      = ⟨201, [("a.png", 10485760)], [⟨none, none, 10485760, some "https://x"⟩]⟩ := by
  decide

/-- C6 counterexample: the cursor-based list handler of
src/api/photos/list.js returns a row whose `blobUrl` is null as an item
with `url: null` — the row is neither excluded from the result set nor
flagged (the response item shape of that handler has no `hasUrl` or
`status` field at all), so the flag/exclude policy is not applied
uniformly across the list variants. -/
theorem cursor_list_returns_null_url_row_unflagged :
    listJsHandler ⟨none, none, some "postgres://db", none, none⟩
      [⟨"p1", some "a.png", none, some 5, 100⟩] none none
      = ⟨200, [⟨"p1", some "a.png", none, some 5, 100⟩], none⟩ := by decide

/-- C6 (amended): the `op=list` handler of src/api/photos.js both
excludes null/empty `blobUrl` rows at the query and flags every item
(`hasUrl` false exactly when no non-blank URL survives, and no item
carries an empty URL string), and the flagging list variant marks every
null/empty-URL row `hasUrl: false` with `status: "legacy_missing_url"`;
the cursor-based src/api/photos/list.js, however, applies neither
policy (see the counterexample), so the policy is not uniform across
variants. -/
theorem list_variants_flag_policy
    (table : List DbPhoto) (limit : Nat) (lp : Option Int)
    (it : OpListItem) (fit : FlagItem)
    (hit : it ∈ photosOpList table limit)
    (hfit : fit ∈ flagListHandler table lp) :
    (it.blobUrl = none → it.hasUrl = false) ∧
    (∀ s, it.blobUrl = some s → s ≠ "") ∧
    (fit.blobUrl = none ∨ fit.blobUrl = some "" →
      fit.hasUrl = false ∧ fit.status = "legacy_missing_url") := by
  obtain ⟨p, hp, rfl⟩ := List.mem_map.mp hit
  obtain ⟨q, hq, rfl⟩ := List.mem_map.mp hfit
  refine ⟨?_, ?_, ?_⟩
  · intro h
    by_cases ht : jsTrim (p.blobUrl.getD "") = "" <;>
      simp [opListItem, ht] at h ⊢
  · intro s hs
    by_cases ht : jsTrim (p.blobUrl.getD "") = "" <;>
      simp [opListItem, ht] at hs ⊢
    rw [← hs]
    exact ht
  · intro h
    simp only [flagListItem] at h
    rcases h with h | h <;> simp [flagListItem, h]

/-- Witness for C6 (amended): concrete items from both flagging
variants on a one-row table with a valid URL. -/
theorem list_variants_flag_policy_witness :
    ((some "https://u" : Option String) = none → true = false) ∧
    (∀ s, (some "https://u" : Option String) = some s → s ≠ "") ∧
    ((some "https://u" : Option String) = none ∨
        (some "https://u" : Option String) = some "" →
      true = false ∧ "ready" = "legacy_missing_url") := by
  have h := list_variants_flag_policy [⟨"p1", none, some "https://u", some 1, 5⟩] 10 none
    ⟨"p1", some "https://u", true, some 1, 5⟩
    ⟨"p1", some "https://u", 1, 5, true, "ready"⟩ (by decide) (by decide)
  exact h

/-- C7 counterexample: the Express admin router applies no lower clamp
— a `limit` of `-5` stays `-5`, not 1; and in the serverless variants an
input of `0` falls back to the default 50 rather than being clamped to
1. -/
theorem limit_below_one_not_clamped :
    expressAdminLimit (some (-5)) = -5 ∧ expressAdminLimit (some (-5)) ≠ 1 ∧
    photosJsLimit (some 0) = 50 ∧ photosJsLimit (some 0) ≠ 1 := by decide

/-- C7 (amended): for numeric input `n ≥ 1` the serverless list
handlers clamp to their ceilings (`min n 100` in src/api/photos.js,
`min n 200` in src/api/photos/list.js and the admin list); missing or
non-numeric input falls back to 50, as does an input of `0` (it is
falsy, so it is never clamped up to 1); the Express admin router only
applies the upper bound, so a negative input passes through
unclamped. -/
theorem effective_limit_clamping
    (n m : Int) (hn : 1 ≤ n) (hm : m ≤ -1) :
    photosJsLimit (some n) = min n 100 ∧
    listJsLimit (some n) = min n 200 ∧
    adminPhotosLimit (some n) = min n 200 ∧
    photosJsLimit none = 50 ∧ listJsLimit none = 50 ∧
    expressAdminLimit none = 50 ∧
    photosJsLimit (some 0) = 50 ∧ listJsLimit (some 0) = 50 ∧
    expressAdminLimit (some m) = m := by
  have hn0 : ¬ n = 0 := by omega
  have hm0 : ¬ m = 0 := by omega
  refine ⟨?_, ?_, ?_, by decide, by decide, by decide, by decide, by decide, ?_⟩
  · simp only [photosJsLimit, jsNumOr50, hn0, if_false]
    rw [Int.min_def, Int.min_def, Int.max_def]
    split_ifs <;> omega
  · simp only [listJsLimit, jsNumOr50, hn0, if_false]
    rw [Int.min_def, Int.min_def, Int.max_def]
    split_ifs <;> omega
  · simp only [adminPhotosLimit, jsNumOr50, hn0, if_false]
    rw [Int.min_def, Int.min_def, Int.max_def]
    split_ifs <;> omega
  · simp only [expressAdminLimit, jsNumOr50, hm0, if_false]
    rw [Int.min_def]
    split_ifs <;> omega

/-- Witness for C7 (amended): `limit=150` and `limit=-5` at the
concrete clamping formulas. -/
theorem effective_limit_clamping_witness :
    photosJsLimit (some 150) = min 150 100 ∧
    listJsLimit (some 150) = min 150 200 ∧
    adminPhotosLimit (some 150) = min 150 200 ∧
    photosJsLimit none = 50 ∧ listJsLimit none = 50 ∧
    expressAdminLimit none = 50 ∧
    photosJsLimit (some 0) = 50 ∧ listJsLimit (some 0) = 50 ∧
    expressAdminLimit (some (-5)) = -5 :=
  effective_limit_clamping 150 (-5) (by decide) (by decide)

/-- C8: when the Photo row exists and all gates pass, a failing
blob/file deletion does not prevent the metadata deletion, in both
single-photo delete variants.  In the serverless handler the rejecting
`del` is the ignored `Except.error ()` argument; in the Express router
the failing `fs.unlink` is the ignored `Except.error ()` argument (its
catch only warns).  Both still delete the row and answer the 302
redirect to `/admin/photos?deleted=1`. -/
theorem delete_blob_failure_does_not_block_row_delete
    (decode : String → String) (env : Env) (header : Option String)
    (pid : String) (photo : DelPhoto)
    (qid spath resolvedPath resolvedUploadsDir : String)
    (hu : falsyStr env.ADMIN_USER = false) (hp : falsyStr env.ADMIN_PASS = false)
    (hdb : falsyStr env.DATABASE_URL = false)
    (hauth : (checkBasicAuthSync decode env header).authorized = true)
    (hid : pid ≠ "") :
    adminDeleteHandler decode env "POST" header (some pid) (Except.ok (some photo))
        (Except.error ()) (Except.ok ())
      = ⟨302, some "/admin/photos?deleted=1",
         !jsFalsyOptStr photo.blobUrl && !falsyStr env.BLOB_READ_WRITE_TOKEN, true⟩ ∧
    expressDeleteHandler (Except.ok (some ⟨qid, some spath⟩))
        resolvedPath resolvedUploadsDir (Except.error ()) (Except.ok ())
      = ⟨302, some "/admin/photos?deleted=1",
         jsStartsWith resolvedPath resolvedUploadsDir, true⟩ := by
  constructor
  · unfold adminDeleteHandler
    rw [if_neg (by simp)]
    rw [if_neg (by simp [hu, hp])]
    rw [if_neg (by simp [hdb])]
    rw [if_neg (by simp [hauth])]
    try rw [if_neg (by simp [jsFalsyOptStr, hid])]
    try rfl
  · rfl

/-- Witness for C8: a concrete authorized delete whose blob deletion
fails still deletes the row and redirects, in both variants. -/
theorem delete_blob_failure_does_not_block_row_delete_witness :
    (adminDeleteHandler b64DecodeAscii ⟨some "Admin", some "pw", some "db", some "tok", none⟩
        "POST" (some "Basic QWRtaW46cHc=") (some "p1")
        (Except.ok (some ⟨"p1", some "https://blob/x"⟩))
        (Except.error ()) (Except.ok ())).status = 302 ∧
    (adminDeleteHandler b64DecodeAscii ⟨some "Admin", some "pw", some "db", some "tok", none⟩
        "POST" (some "Basic QWRtaW46cHc=") (some "p1")
        (Except.ok (some ⟨"p1", some "https://blob/x"⟩))
        (Except.error ()) (Except.ok ())).dbDeleted = true ∧
    (expressDeleteHandler (Except.ok (some ⟨"p1", some "123-a.png"⟩))
        "/srv/app/uploads/123-a.png" "/srv/app/uploads"
        (Except.error ()) (Except.ok ())).status = 302 ∧
    (expressDeleteHandler (Except.ok (some ⟨"p1", some "123-a.png"⟩))
        "/srv/app/uploads/123-a.png" "/srv/app/uploads"
        (Except.error ()) (Except.ok ())).dbDeleted = true := by
  have h := delete_blob_failure_does_not_block_row_delete b64DecodeAscii
    ⟨some "Admin", some "pw", some "db", some "tok", none⟩
    (some "Basic QWRtaW46cHc=") "p1" ⟨"p1", some "https://blob/x"⟩
    "p1" "123-a.png" "/srv/app/uploads/123-a.png" "/srv/app/uploads"
    rfl rfl rfl (by decide) (by decide)
  rw [h.1, h.2]
  exact ⟨rfl, rfl, rfl, rfl⟩

/-- C9: every character surviving `sanitizeFilename` is not a path
separator (`/`, `\x5c`), not a control character in 0x00-0x1F or 0x7F,
and not a double quote, and the result has at most 255 characters. -/
theorem sanitizeFilename_safe (s : List Char) :
    (∀ c ∈ sanitizeFilename s,
      c ≠ '/' ∧ c ≠ backslashChar ∧ ¬ (c.toNat ≤ 31) ∧ c.toNat ≠ 127 ∧ c ≠ quoteChar) ∧
    (sanitizeFilename s).length ≤ 255 := by
  constructor
  · intro c hc
    have hc1 := List.mem_of_mem_take hc
    obtain ⟨b, hb, rfl⟩ := List.mem_map.mp hc1
    obtain ⟨hb1, hb2⟩ := List.mem_filter.mp hb
    obtain ⟨a, _, rfl⟩ := List.mem_map.mp hb1
    by_cases hsep : a = '/' ∨ a = backslashChar
    · rw [if_pos hsep] at hb2 ⊢
      by_cases hq : ('_' : Char) = quoteChar
      · exact absurd hq (by decide)
      · rw [if_neg hq]
        refine ⟨by decide, by decide, by decide, by decide, by decide⟩
    · rw [if_neg hsep] at hb2 ⊢
      simp only [ctrlChar, Bool.not_eq_true', Bool.or_eq_false_iff,
        decide_eq_false_iff_not] at hb2
      by_cases hq : a = quoteChar
      · rw [if_pos hq]
        refine ⟨by decide, by decide, by decide, by decide, by decide⟩
      · rw [if_neg hq]
        push_neg at hsep
        exact ⟨hsep.1, hsep.2, hb2.1, hb2.2, hq⟩
  · exact List.length_take_le 255 _

/-- Witness for C9: the traversal payload `../../etc/passwd` sanitizes
to `.._.._etc_passwd`, which the theorem certifies free of separators,
control characters and quotes. -/
theorem sanitizeFilename_safe_witness :
    (∀ c ∈ sanitizeFilename ("../../etc/passwd".data),
      c ≠ '/' ∧ c ≠ backslashChar ∧ ¬ (c.toNat ≤ 31) ∧ c.toNat ≠ 127 ∧ c ≠ quoteChar) ∧
    (sanitizeFilename ("../../etc/passwd".data)).length ≤ 255 ∧
    sanitizeFilenameStr "../../etc/passwd" = ".._.._etc_passwd" :=
  ⟨(sanitizeFilename_safe ("../../etc/passwd".data)).1,
   (sanitizeFilename_safe ("../../etc/passwd".data)).2, by decide⟩

end PhotoboothSpec
